import Mathlib

/-!
Shallow embedding of the blahajpi text-classification core
(`src/lib/src/evaluation/metrics.cpp`, `src/lib/src/preprocessing/vectorizer.cpp`)
together with theorems settling the specification claims about it.
C++ `double` values are modelled as rationals where only field arithmetic
occurs, and as real numbers where `log` / `sqrt` / `exp` appear.
-/

namespace Blahaj

/-! ## Evaluation metrics (`Metrics`, metrics.cpp) -/

/-- The 2x2 confusion matrix indexed `[actual][predicted]`;
field `mAP` is cell `matrix[A][P]` of the C++ code. -/
structure ConfusionMatrix where
  m00 : Nat
  m01 : Nat
  m10 : Nat
  m11 : Nat
deriving DecidableEq

/-- Label-to-class mapping used throughout metrics.cpp:
`(label == 0) ? 0 : 1`. -/
def classIndex (label : Int) : Nat := if label = 0 then 0 else 1

/-- One loop iteration of `Metrics::confusionMatrix`: increment the cell
`matrix[actual][predicted]`. -/
def bumpCell (m : ConfusionMatrix) (actual predicted : Nat) : ConfusionMatrix :=
  if actual = 0 then
    if predicted = 0 then { m with m00 := m.m00 + 1 } else { m with m01 := m.m01 + 1 }
  else
    if predicted = 0 then { m with m10 := m.m10 + 1 } else { m with m11 := m.m11 + 1 }

/-- `Metrics::confusionMatrix`: iterates over
`i < yTrue.size() && i < yPred.size()` (which `List.zip` reproduces:
it truncates to the shorter list) and increments
`matrix[(yTrue[i]==0)?0:1][(yPred[i]==0)?0:1]`. -/
def confusionMatrix (yTrue yPred : List Int) : ConfusionMatrix :=
  (yTrue.zip yPred).foldl
    (fun m ab => bumpCell m (classIndex ab.1) (classIndex ab.2)) ⟨0, 0, 0, 0⟩

/-- `Metrics::precision`: `(tp + fp > 0) ? tp / (tp + fp) : 0.0`. -/
def precision (tp fp : Nat) : ℚ :=
  if 0 < tp + fp then (tp : ℚ) / ((tp : ℚ) + (fp : ℚ)) else 0

/-- `Metrics::recall`: `(tp + fn > 0) ? tp / (tp + fn) : 0.0`. -/
def recallScore (tp fn : Nat) : ℚ :=
  if 0 < tp + fn then (tp : ℚ) / ((tp : ℚ) + (fn : ℚ)) else 0

/-- `Metrics::f1Score`: `(p + r > 0) ? 2 p r / (p + r) : 0.0`. -/
def f1Score (p r : ℚ) : ℚ :=
  if 0 < p + r then 2 * (p * r) / (p + r) else 0

/-- `Metrics::accuracy`: `(total > 0) ? (tp + tn) / total : 0.0`. -/
def accuracy (tp tn total : Nat) : ℚ :=
  if 0 < total then ((tp : ℚ) + (tn : ℚ)) / (total : ℚ) else 0

/-- Result record of `Metrics::calculateMetrics` (the C++ code returns an
`unordered_map` with exactly these fourteen keys). -/
structure MetricsResult where
  accuracy : ℚ
  precisionSafe : ℚ
  precisionHarmful : ℚ
  recallSafe : ℚ
  recallHarmful : ℚ
  f1Safe : ℚ
  f1Harmful : ℚ
  macroPrecision : ℚ
  macroRecall : ℚ
  macroF1 : ℚ
  trueNegatives : ℚ
  falsePositives : ℚ
  falseNegatives : ℚ
  truePositives : ℚ
deriving DecidableEq

/-- `Metrics::calculateMetrics`: reads `tn = matrix[0][0]`, `fp = matrix[0][1]`,
`fn = matrix[1][0]`, `tp = matrix[1][1]` and derives all ratios with the
guarded helpers. -/
def calculateMetrics (yTrue yPred : List Int) : MetricsResult :=
  let matrix := confusionMatrix yTrue yPred
  let tn := matrix.m00
  let fp := matrix.m01
  let fn := matrix.m10
  let tp := matrix.m11
  let precSafe := precision tn fn
  let precHarmful := precision tp fp
  let recallSafe := recallScore tn fp
  let recallHarmful := recallScore tp fn
  let f1Safe := f1Score precSafe recallSafe
  let f1Harmful := f1Score precHarmful recallHarmful
  let totalSamples := tn + fp + fn + tp
  { accuracy := if 0 < totalSamples then ((tn : ℚ) + (tp : ℚ)) / (totalSamples : ℚ) else 0
    precisionSafe := precSafe
    precisionHarmful := precHarmful
    recallSafe := recallSafe
    recallHarmful := recallHarmful
    f1Safe := f1Safe
    f1Harmful := f1Harmful
    macroPrecision := (precSafe + precHarmful) / 2
    macroRecall := (recallSafe + recallHarmful) / 2
    macroF1 := (f1Safe + f1Harmful) / 2
    trueNegatives := (tn : ℚ)
    falsePositives := (fp : ℚ)
    falseNegatives := (fn : ℚ)
    truePositives := (tp : ℚ) }

/-- Insertion step for the embedding of `std::sort` with a strict comparator:
`x` is placed before the first element `y` with `gt x y`. The comparator order
is all the claims depend on (tie order of `std::sort` is unspecified). -/
def insertSorted {α : Type} (gt : α → α → Bool) (x : α) : List α → List α
  | [] => [x]
  | y :: ys => if gt x y then x :: y :: ys else y :: insertSorted gt x ys

/-- Embedding of `std::sort` with comparator `gt` as an insertion sort. -/
def sortByGt {α : Type} (gt : α → α → Bool) (l : List α) : List α :=
  l.foldr (insertSorted gt) []

/-- One loop iteration of the AUC accumulation in `Metrics::areaUnderROC`.
State is `(auc, tpPrev, fpPrev)`; note that the code adds the trapezoid
`(fpRate - fpPrev) * (tpRate + tpPrev) / 2` where `fpPrev` / `tpPrev` are the
raw cumulative counts, exactly as in the source. -/
def aucStep (positiveCount negativeCount : Nat) (s : ℚ × ℚ × ℚ) (p : ℚ × Int) :
    ℚ × ℚ × ℚ :=
  let auc := s.1
  let tpPrev := s.2.1
  let fpPrev := s.2.2
  let tpRate : ℚ :=
    if p.2 ≠ 0 then (tpPrev + 1) / (positiveCount : ℚ) else tpPrev / (positiveCount : ℚ)
  let fpRate : ℚ :=
    if p.2 ≠ 0 then fpPrev / (negativeCount : ℚ) else (fpPrev + 1) / (negativeCount : ℚ)
  let auc := auc + (fpRate - fpPrev) * (tpRate + tpPrev) / 2
  if p.2 ≠ 0 then (auc, tpPrev + 1, fpPrev) else (auc, tpPrev, fpPrev + 1)

/-- `Metrics::areaUnderROC`: pairs `(score, label)` over the common prefix,
sorts by descending score, returns `0.5` when one class is absent, and
otherwise accumulates the trapezoid sum of the source. -/
def areaUnderROC (yTrue : List Int) (scores : List ℚ) : ℚ :=
  let scoreLabelPairs := scores.zip yTrue
  let sorted := sortByGt (fun a b => decide (b.1 < a.1)) scoreLabelPairs
  let positiveCount := (yTrue.filter (fun label => label ≠ 0)).length
  let negativeCount := (yTrue.filter (fun label => label = 0)).length
  if positiveCount = 0 ∨ negativeCount = 0 then 1 / 2
  else (sorted.foldl (aucStep positiveCount negativeCount) (0, 0, 0)).1

/-- Number of index pairs falling in confusion-matrix cell `[a][p]`. -/
def countCell (pairs : List (Int × Int)) (a p : Nat) : Nat :=
  (pairs.filter (fun ab => classIndex ab.1 == a && classIndex ab.2 == p)).length

theorem zip_take_min (xs ys : List Int) :
    (xs.take (min xs.length ys.length)).zip (ys.take (min xs.length ys.length)) = xs.zip ys := by
  rw [List.zip_eq_zipWith, List.zip_eq_zipWith, ← List.take_zipWith]
  rw [← List.length_zipWith Prod.mk xs ys, List.take_length]

theorem foldl_bumpCell (pairs : List (Int × Int)) (m : ConfusionMatrix) :
    pairs.foldl (fun acc ab => bumpCell acc (classIndex ab.1) (classIndex ab.2)) m =
      ⟨m.m00 + countCell pairs 0 0, m.m01 + countCell pairs 0 1,
       m.m10 + countCell pairs 1 0, m.m11 + countCell pairs 1 1⟩ := by
  induction pairs generalizing m with
  | nil => simp [countCell]
  | cons hd tl ih =>
    rw [List.foldl_cons, ih]
    by_cases h1 : hd.1 = 0 <;> by_cases h2 : hd.2 = 0 <;>
      simp [countCell, bumpCell, classIndex, h1, h2, List.filter_cons, Nat.add_assoc,
        Nat.add_comm, Nat.add_left_comm]

/-- C1: the claim says `areaUnderROC` returns exactly 1.0 on perfectly ranked
scores, 0.0 on perfectly reversed scores, and 0.5 for degenerate inputs
(all-one-class or at most one sample per class).  Evaluating the embedded code:
on the perfectly ranked input `yTrue = [1,0,0]`, `scores = [3,2,1]` it returns
1/2 rather than 1; on the perfectly reversed input it returns -1/2 rather than
0; with exactly one sample per class and perfect ranking it returns 1 rather
than 0.5; only the all-one-class cases return 0.5 as specified.  The trapezoid
accumulation mixes the cumulative counts `tpPrev` / `fpPrev` with rates, so the
code contradicts both the specification and its own stated trapezoidal-rule
intent. -/
theorem C1_areaUnderROC_eval :
    areaUnderROC [1, 0, 0] [3, 2, 1] = 1 / 2 ∧
    areaUnderROC [1, 0, 0] [1, 2, 3] = -(1 / 2) ∧
    areaUnderROC [1, 0] [2, 1] = 1 ∧
    areaUnderROC [1, 1] [2, 1] = 1 / 2 ∧
    areaUnderROC [0, 0] [2, 1] = 1 / 2 := by
  norm_num [areaUnderROC, aucStep, sortByGt, insertSorted]

/-- C7: `confusionMatrix` counts exactly the zipped (hence
min-length-truncated) label pairs, placing pair `i` in cell
`[yTrue[i] == 0 ? 0 : 1][yPred[i] == 0 ? 0 : 1]`; on the documented example it
yields `[[4,1],[1,4]]`, and `calculateMetrics` on the same input gives
accuracy = precision_harmful = recall_harmful = f1_harmful = 4/5. -/
theorem C7_confusionMatrix_counts :
    (∀ yTrue yPred : List Int,
      confusionMatrix yTrue yPred =
        ⟨countCell (yTrue.zip yPred) 0 0, countCell (yTrue.zip yPred) 0 1,
         countCell (yTrue.zip yPred) 1 0, countCell (yTrue.zip yPred) 1 1⟩ ∧
      yTrue.zip yPred =
        (yTrue.take (min yTrue.length yPred.length)).zip
          (yPred.take (min yTrue.length yPred.length))) ∧
    confusionMatrix [0, 0, 0, 0, 0, 1, 1, 1, 1, 1] [0, 0, 0, 0, 1, 0, 1, 1, 1, 1] =
      ⟨4, 1, 1, 4⟩ ∧
    (calculateMetrics [0, 0, 0, 0, 0, 1, 1, 1, 1, 1] [0, 0, 0, 0, 1, 0, 1, 1, 1, 1]).accuracy
      = 4 / 5 ∧
    (calculateMetrics [0, 0, 0, 0, 0, 1, 1, 1, 1, 1]
      [0, 0, 0, 0, 1, 0, 1, 1, 1, 1]).precisionHarmful = 4 / 5 ∧
    (calculateMetrics [0, 0, 0, 0, 0, 1, 1, 1, 1, 1]
      [0, 0, 0, 0, 1, 0, 1, 1, 1, 1]).recallHarmful = 4 / 5 ∧
    (calculateMetrics [0, 0, 0, 0, 0, 1, 1, 1, 1, 1]
      [0, 0, 0, 0, 1, 0, 1, 1, 1, 1]).f1Harmful = 4 / 5 := by
  refine ⟨fun yTrue yPred => ⟨?_, (zip_take_min yTrue yPred).symm⟩, ?_, ?_⟩
  · simpa using foldl_bumpCell (yTrue.zip yPred) ⟨0, 0, 0, 0⟩
  · decide
  · norm_num [calculateMetrics, confusionMatrix, bumpCell, classIndex, precision,
      recallScore, f1Score]

/-- C8: every 0/0 ratio in the metric helpers is defined as exactly 0:
precision with no predicted members of the class, recall with no actual
members, F1 with precision + recall = 0, and accuracy with zero samples; and
`calculateMetrics` on empty inputs yields the all-zero result (the embedded
functions are total, so no division by zero and no exception occurs). -/
theorem C8_zero_denominators :
    (∀ tp fp : Nat, tp + fp = 0 → precision tp fp = 0) ∧
    (∀ tp fn : Nat, tp + fn = 0 → recallScore tp fn = 0) ∧
    (∀ p r : ℚ, p + r = 0 → f1Score p r = 0) ∧
    (∀ tp tn : Nat, accuracy tp tn 0 = 0) ∧
    calculateMetrics [] [] = ⟨0, 0, 0, 0, 0, 0, 0, 0, 0, 0, 0, 0, 0, 0⟩ := by
  refine ⟨fun tp fp h => ?_, fun tp fn h => ?_, fun p r h => ?_, fun tp tn => ?_, ?_⟩
  · simp [precision, h, Nat.le_zero.mp (Nat.le_of_eq h)]
  · simp [recallScore, h, Nat.le_zero.mp (Nat.le_of_eq h)]
  · simp [f1Score, h]
  · simp [accuracy]
  · norm_num [calculateMetrics, confusionMatrix, precision, recallScore, f1Score]

/-- C8 witness: the zero-denominator guards evaluated at concrete inputs. -/
theorem C8_zero_denominators_witness :
    precision 0 0 = 0 ∧ recallScore 0 0 = 0 ∧ f1Score 0 0 = 0 ∧ accuracy 3 4 0 = 0 :=
  ⟨C8_zero_denominators.1 0 0 rfl, C8_zero_denominators.2.1 0 0 rfl,
   C8_zero_denominators.2.2.1 0 0 (by norm_num), C8_zero_denominators.2.2.2.1 3 4⟩

/-! ## TF-IDF vectorizer (`TfidfVectorizer`, vectorizer.cpp) -/

/-- State of a `TfidfVectorizer` instance: the hyperparameter members plus the
vocabulary (the `unordered_map<string,int>` modelled as an association list in
iteration order), the document-frequency table and the corpus size. -/
structure TfidfVectorizer where
  sublinearTf : Bool
  maxDf : ℚ
  maxFeatures : Nat
  minNgram : Nat
  maxNgram : Nat
  totalDocuments : Nat
  vocabulary : List (String × Nat)
  documentFrequencies : List Nat
deriving DecidableEq

/-- `TfidfVectorizer::TfidfVectorizer`: the members are initialized from the
raw constructor arguments in the initializer list; the validation block in the
constructor body assigns to the parameters, which shadow the members, so the
corrected values are discarded when the body ends (reproduced here by the dead
`let` bindings). -/
def construct (sublinearTf : Bool) (maxDf : ℚ) (maxFeatures minNgram maxNgram : Nat) :
    TfidfVectorizer :=
  let state : TfidfVectorizer :=
    { sublinearTf := sublinearTf, maxDf := maxDf, maxFeatures := maxFeatures,
      minNgram := minNgram, maxNgram := maxNgram, totalDocuments := 0,
      vocabulary := [], documentFrequencies := [] }
  let minNgram := if minNgram < 1 then 1 else minNgram
  let maxNgram := if maxNgram < minNgram then minNgram else maxNgram
  let maxDf := if maxDf ≤ 0 ∨ 1 < maxDf then 1 else maxDf
  state

/-- Modelled from the spec: a constructor that stores the corrected parameter
values, following the sentence that degenerate n-gram bounds (minN less than 1,
maxN less than minN) are silently corrected to minN = 1 and maxN = minN, and an
out-of-range maxDf to 1.  Used to compare the source constructor against the
claimed behavior. -/
def constructSpec (sublinearTf : Bool) (maxDf : ℚ) (maxFeatures minNgram maxNgram : Nat) :
    TfidfVectorizer :=
  let minNgram := if minNgram < 1 then 1 else minNgram
  let maxNgram := if maxNgram < minNgram then minNgram else maxNgram
  let maxDf := if maxDf ≤ 0 ∨ 1 < maxDf then 1 else maxDf
  { sublinearTf := sublinearTf, maxDf := maxDf, maxFeatures := maxFeatures,
    minNgram := minNgram, maxNgram := maxNgram, totalDocuments := 0,
    vocabulary := [], documentFrequencies := [] }

/-- Accumulator pass of `istringstream >> word`: splits the character stream on
whitespace, dropping empty fragments. -/
def wordsAux : List Char → List Char → List String
  | [], acc => if acc.isEmpty then [] else [String.mk acc.reverse]
  | c :: cs, acc =>
    if c.isWhitespace then
      if acc.isEmpty then wordsAux cs [] else String.mk acc.reverse :: wordsAux cs []
    else wordsAux cs (c :: acc)

/-- Whitespace word splitting performed at the start of
`TfidfVectorizer::tokenize`. -/
def splitWords (text : String) : List String := wordsAux text.data []

/-- `TfidfVectorizer::tokenize`: the inner loops build, for every n in
`[minNgram, maxNgram]` with at least n words available, every contiguous
n-word window joined with underscores. -/
def TfidfVectorizer.tokenize (v : TfidfVectorizer) (text : String) : List String :=
  let words := splitWords text
  ((List.range' v.minNgram (v.maxNgram + 1 - v.minNgram)).map (fun n =>
    if words.length < n then []
    else (List.range (words.length - n + 1)).map (fun i =>
      String.intercalate "_" ((words.drop i).take n)))).flatten

/-- Increment of `docFreqs[term]++` / `termFreqs[token]++` on the association
list modelling the `unordered_map`. -/
def bumpCount (m : List (String × Nat)) (t : String) : List (String × Nat) :=
  match m with
  | [] => [(t, 1)]
  | (s, c) :: rest => if s = t then (s, c + 1) :: rest else (s, c) :: bumpCount rest t

/-- Document-frequency counting loop of `TfidfVectorizer::buildVocabulary`:
each document contributes one count per distinct term (the `std::set`
de-duplication). -/
def docFreqsOf (tokenizedDocs : List (List String)) : List (String × Nat) :=
  tokenizedDocs.foldl (fun m doc => doc.dedup.foldl bumpCount m) []

/-- `static_cast<int>` applied to a double: truncation toward zero, which on
exactly representable rationals is `num / den` in integer division. -/
def castToInt (q : ℚ) : Int := q.num / q.den

/-- Cutoff conversion of `TfidfVectorizer::buildVocabulary`:
`maxDf < 1.0 ? int(maxDf * totalDocuments) : int(maxDf)`. -/
def maxDfCutoff (maxDf : ℚ) (totalDocuments : Nat) : Int :=
  if maxDf < 1 then castToInt (maxDf * (totalDocuments : ℚ)) else castToInt maxDf

/-- Document-frequency filter of `TfidfVectorizer::buildVocabulary`: keeps
exactly the terms with `freq <= maxDfCount`. -/
def filterByDf (docFreqs : List (String × Nat)) (cutoff : Int) : List (String × Nat) :=
  docFreqs.filter (fun tf => (tf.2 : Int) ≤ cutoff)

/-- `TfidfVectorizer::buildVocabulary`: count document frequencies, filter by
the converted cutoff, sort by descending frequency, truncate to `maxFeatures`,
and assign indices 0..N-1 in that order. -/
def TfidfVectorizer.buildVocabulary (v : TfidfVectorizer)
    (tokenizedDocs : List (List String)) (maxDf : ℚ) (maxFeatures : Nat) :
    TfidfVectorizer :=
  let docFreqs := docFreqsOf tokenizedDocs
  let maxDfCount := maxDfCutoff maxDf v.totalDocuments
  let filteredTerms := filterByDf docFreqs maxDfCount
  let sorted := sortByGt (fun a b => decide (b.2 < a.2)) filteredTerms
  let truncated := sorted.take maxFeatures
  { v with vocabulary := truncated.enum.map (fun p => (p.2.1, p.1)),
           documentFrequencies := truncated.map (fun p => p.2) }

/-- `TfidfVectorizer::fit`: clears the vocabulary and frequencies, records the
corpus size, returns early on an empty corpus, overrides the stored `maxDf` /
`maxFeatures` whenever the arguments are positive, then rebuilds the
vocabulary. -/
def TfidfVectorizer.fit (v : TfidfVectorizer) (texts : List String) (maxDf : ℚ)
    (maxFeatures : Nat) : TfidfVectorizer :=
  let v := { v with vocabulary := [], documentFrequencies := [],
                    totalDocuments := texts.length }
  if texts.length = 0 then v
  else
    let v := if 0 < maxDf then { v with maxDf := maxDf } else v
    let v := if 0 < maxFeatures then { v with maxFeatures := maxFeatures } else v
    let tokenizedDocs := texts.map v.tokenize
    v.buildVocabulary tokenizedDocs v.maxDf v.maxFeatures

/-- A call of `fit` with the default arguments of the header declaration
(`maxDf = 0.5`, `maxFeatures = 10000`). -/
def TfidfVectorizer.fitDefault (v : TfidfVectorizer) (texts : List String) :
    TfidfVectorizer :=
  v.fit texts (1 / 2) 10000

/-- Lookup in the vocabulary association list (`vocabulary.find`). -/
def lookupVocab (vocab : List (String × Nat)) (term : String) : Option Nat :=
  match vocab with
  | [] => none
  | (s, i) :: rest => if s = term then some i else lookupVocab rest term

/-- Term-frequency counting loop of
`TfidfVectorizer::transformSingleDocument`. -/
def termFrequencies (tokens : List String) : List (String × Nat) :=
  tokens.foldl bumpCount []

/-- TF-IDF weight of one term, as computed inline in
`TfidfVectorizer::transformSingleDocument`: optional sublinear scaling
`1 + log tf`, smoothed IDF `log((totalDocs + 1) / (docFreq + 1)) + 1`. -/
noncomputable def tfidfWeight (sublinear : Bool) (freq docFreq totalDocuments : Nat) : ℝ :=
  let tf : ℝ := if sublinear then 1 + Real.log (freq : ℝ) else (freq : ℝ)
  let idf : ℝ := Real.log (((totalDocuments : ℝ) + 1) / ((docFreq : ℝ) + 1)) + 1
  tf * idf

/-- Sum of squared entries (the `squaredSum` loop of
`TfidfVectorizer::normalizeVector`). -/
noncomputable def sumSq (l : List ℝ) : ℝ := (l.map (fun x => x * x)).sum

/-- Euclidean norm of a feature vector. -/
noncomputable def l2norm (l : List ℝ) : ℝ := Real.sqrt (sumSq l)

/-- `TfidfVectorizer::normalizeVector`: divides every entry by the Euclidean
norm, skipping the division entirely when the squared sum is not positive. -/
noncomputable def normalizeVector (vec : List ℝ) : List ℝ :=
  let squaredSum := sumSq vec
  if 0 < squaredSum then vec.map (fun x => x / Real.sqrt squaredSum) else vec

/-- `TfidfVectorizer::transformSingleDocument`: count term frequencies, fill a
zero vector with the TF-IDF weight at each in-vocabulary term's index, then
L2-normalize. -/
noncomputable def TfidfVectorizer.transformSingleDocument (v : TfidfVectorizer)
    (text : String) : List ℝ :=
  let termFreqs := termFrequencies (v.tokenize text)
  let featureVector : List ℝ := List.replicate v.vocabulary.length 0
  let featureVector := termFreqs.foldl (fun vec tf =>
    match lookupVocab v.vocabulary tf.1 with
    | none => vec
    | some featureIdx =>
        vec.set featureIdx
          (tfidfWeight v.sublinearTf tf.2 (v.documentFrequencies.getD featureIdx 0)
            v.totalDocuments)) featureVector
  normalizeVector featureVector

/-- `TfidfVectorizer::transform`: throws (here: returns `Except.error`) when
the vocabulary is empty, otherwise transforms each document. -/
noncomputable def TfidfVectorizer.transform (v : TfidfVectorizer)
    (texts : List String) : Except String (List (List ℝ)) :=
  if v.vocabulary = [] then
    Except.error "Vocabulary is empty. Call fit() first."
  else Except.ok (texts.map v.transformSingleDocument)

/-- `TfidfVectorizer::fitTransform`: `fit(texts)` with the default arguments,
then `transform(texts)` on the fitted state. -/
noncomputable def TfidfVectorizer.fitTransform (v : TfidfVectorizer)
    (texts : List String) : TfidfVectorizer × Except String (List (List ℝ)) :=
  let fitted := v.fitDefault texts
  (fitted, fitted.transform texts)

/-- Logical content of the file written by `TfidfVectorizer::save`: the
hyperparameters, the vocabulary entries in map-iteration order, and the
document-frequency table. -/
structure SerializedVectorizer where
  sublinearTf : Bool
  maxDf : ℚ
  maxFeatures : Nat
  minNgram : Nat
  maxNgram : Nat
  totalDocuments : Nat
  vocabEntries : List (String × Nat)
  dfEntries : List Nat
deriving DecidableEq

/-- `TfidfVectorizer::save`: serializes members, vocabulary entries and
document frequencies in order. -/
def TfidfVectorizer.save (v : TfidfVectorizer) : SerializedVectorizer :=
  ⟨v.sublinearTf, v.maxDf, v.maxFeatures, v.minNgram, v.maxNgram, v.totalDocuments,
   v.vocabulary, v.documentFrequencies⟩

/-- `vocabulary[term] = index` on the association list: overwrite if present,
append otherwise. -/
def setAssoc (m : List (String × Nat)) (t : String) (i : Nat) : List (String × Nat) :=
  match m with
  | [] => [(t, i)]
  | (s, j) :: rest => if s = t then (s, i) :: rest else (s, j) :: setAssoc rest t i

/-- `TfidfVectorizer::load` applied to well-formed saved content: reads the
members back and re-inserts every vocabulary entry. -/
def loadVectorizer (s : SerializedVectorizer) : TfidfVectorizer :=
  { sublinearTf := s.sublinearTf, maxDf := s.maxDf, maxFeatures := s.maxFeatures,
    minNgram := s.minNgram, maxNgram := s.maxNgram, totalDocuments := s.totalDocuments,
    vocabulary := s.vocabEntries.foldl (fun m ti => setAssoc m ti.1 ti.2) [],
    documentFrequencies := s.dfEntries }

/-- Structural invariant of the vectorizer state: the document-frequency table
is index-aligned with the vocabulary, terms are distinct, and the assigned
feature indices are exactly 0..N-1 in insertion order. -/
def TfidfVectorizer.wellFormed (v : TfidfVectorizer) : Prop :=
  v.documentFrequencies.length = v.vocabulary.length ∧
  (v.vocabulary.map Prod.fst).Nodup ∧
  v.vocabulary.map Prod.snd = List.range v.vocabulary.length

theorem insertSorted_perm {α : Type} (gt : α → α → Bool) (x : α) (l : List α) :
    List.Perm (insertSorted gt x l) (x :: l) := by
  induction l with
  | nil => simp [insertSorted]
  | cons y ys ih =>
    simp only [insertSorted]
    split
    · exact List.Perm.refl _
    · exact (ih.cons y).trans (List.Perm.swap x y ys)

theorem sortByGt_perm {α : Type} (gt : α → α → Bool) (l : List α) :
    List.Perm (sortByGt gt l) l := by
  induction l with
  | nil => exact List.Perm.refl _
  | cons x xs ih =>
    exact (insertSorted_perm gt x (sortByGt gt xs)).trans (ih.cons x)

theorem vocab_keys_eq (l : List (String × Nat)) :
    (l.enum.map (fun p => (p.2.1, p.1))).map Prod.fst = l.map Prod.fst := by
  rw [List.map_map]
  have : (Prod.fst ∘ fun p : Nat × (String × Nat) => (p.2.1, p.1)) =
      (Prod.fst ∘ Prod.snd) := rfl
  rw [this, ← List.map_map, List.enum_map_snd]

theorem buildVocabulary_zip (v : TfidfVectorizer) (docs : List (List String))
    (maxDf : ℚ) (mf : Nat) :
    ((v.buildVocabulary docs maxDf mf).vocabulary.map Prod.fst).zip
        ((v.buildVocabulary docs maxDf mf).documentFrequencies) =
      (sortByGt (fun a b => decide (b.2 < a.2))
        (filterByDf (docFreqsOf docs) (maxDfCutoff maxDf v.totalDocuments))).take mf := by
  simp only [TfidfVectorizer.buildVocabulary]
  rw [vocab_keys_eq, List.zip_map']
  simp

/-- C2: the claim says degenerate n-gram bounds are silently corrected at
construction so that `tokenize` behaves as with the corrected bounds.  The
constructor body assigns the corrected values to the parameters, which shadow
the just-initialized members, so the stored bounds keep their degenerate
values: constructing with `minNgram = 2, maxNgram = 1` leaves the members at
`(2, 1)` and `tokenize "a b"` produces no tokens at all, while the
spec-modelled corrected constructor stores `(2, 2)` and produces the bigram. -/
theorem C2_constructor_validation_dead :
    (construct true (1 / 2) 10 2 1).minNgram = 2 ∧
    (construct true (1 / 2) 10 2 1).maxNgram = 1 ∧
    (construct true (1 / 2) 10 2 1).tokenize "a b" = [] ∧
    (constructSpec true (1 / 2) 10 2 1).minNgram = 2 ∧
    (constructSpec true (1 / 2) 10 2 1).maxNgram = 2 ∧
    (constructSpec true (1 / 2) 10 2 1).tokenize "a b" = ["a_b"] :=
  ⟨rfl, rfl, rfl, rfl, rfl, rfl⟩

/-- C3 counterexample: the claim reads `maxDf` in (0,1] as a fraction of the
corpus, so at `maxDf = 1.0` over 2 documents the cutoff would be 2 and the
term "a" (document frequency 2) would remain a candidate; the code instead
takes the `maxDf >= 1` branch, truncates the cutoff to the absolute count 1,
and discards the term, leaving an empty vocabulary. -/
theorem C3_maxDf_one_counterexample :
    (TfidfVectorizer.fit (construct true 1 10 1 1) ["a", "a"] 1 10).vocabulary = [] ∧
    docFreqsOf (["a", "a"].map ((construct true 1 10 1 1).tokenize)) = [("a", 2)] ∧
    maxDfCutoff 1 2 = 1 ∧ ((2 : ℚ) ≤ 1 * (2 : ℚ)) :=
  ⟨rfl, rfl, rfl, by norm_num⟩

/-- C3 as amended: during vocabulary building the `maxDf` parameter is
converted to an absolute cutoff — a fraction of the corpus (truncated toward
zero) when strictly below 1, an absolute count (truncated toward zero) when at
least 1 — and a term survives the document-frequency filter exactly when its
document frequency is at or below that cutoff; every (term, frequency) pair
that reaches the vocabulary passed that filter. -/
theorem C3_maxDf_cutoff_filter :
    ∀ (v : TfidfVectorizer) (docs : List (List String)) (maxDf : ℚ) (mf : Nat),
      (∀ p : String × Nat,
        p ∈ filterByDf (docFreqsOf docs) (maxDfCutoff maxDf v.totalDocuments) ↔
          p ∈ docFreqsOf docs ∧
            (p.2 : Int) ≤ (if maxDf < 1 then castToInt (maxDf * (v.totalDocuments : ℚ))
                           else castToInt maxDf)) ∧
      (∀ p : String × Nat,
        p ∈ ((v.buildVocabulary docs maxDf mf).vocabulary.map Prod.fst).zip
              ((v.buildVocabulary docs maxDf mf).documentFrequencies) →
          p ∈ docFreqsOf docs ∧
            (p.2 : Int) ≤ (if maxDf < 1 then castToInt (maxDf * (v.totalDocuments : ℚ))
                           else castToInt maxDf)) := by
  intro v docs maxDf mf
  constructor
  · intro p
    simp [filterByDf, List.mem_filter, maxDfCutoff]
  · intro p hp
    rw [buildVocabulary_zip] at hp
    have hp2 : p ∈ sortByGt (fun a b => decide (b.2 < a.2))
        (filterByDf (docFreqsOf docs) (maxDfCutoff maxDf v.totalDocuments)) :=
      List.take_subset _ _ hp
    have hp3 := (sortByGt_perm _ _).mem_iff.mp hp2
    have hmem := List.mem_filter.mp hp3
    refine ⟨hmem.1, ?_⟩
    have h4 := hmem.2
    simp [maxDfCutoff] at h4 ⊢
    exact h4

/-- C10 counterexample: `fit` on an empty document list returns before the
parameter-override block, so a default-argument fit on an empty corpus leaves
the construction-time `maxDf = 3/10` and `maxFeatures = 7` in place instead of
overwriting them with 0.5 and 10000. -/
theorem C10_fit_empty_keeps_construction :
    (TfidfVectorizer.fitDefault (construct true (3 / 10) 7 1 2) []).maxDf = 3 / 10 ∧
    (TfidfVectorizer.fitDefault (construct true (3 / 10) 7 1 2) []).maxFeatures = 7 :=
  ⟨rfl, rfl⟩

/-- C10 as amended: on every nonempty document list, a default-argument fit
(directly, or through `fitTransform`, whose fitted state is by definition a
default-argument fit) overwrites the stored `maxDf` and `maxFeatures` with the
defaults 0.5 and 10000 because the positive defaults count as "provided", so
construction-time values of those two parameters never influence its result. -/
theorem C10_fit_default_overrides :
    ∀ (v : TfidfVectorizer) (texts : List String) (d : ℚ) (f : Nat),
      texts ≠ [] →
      (v.fitDefault texts).maxDf = 1 / 2 ∧
      (v.fitDefault texts).maxFeatures = 10000 ∧
      TfidfVectorizer.fitDefault { v with maxDf := d, maxFeatures := f } texts =
        v.fitDefault texts ∧
      (v.fitTransform texts).1 = v.fitDefault texts := by
  intro v texts d f h
  have hl : ¬ texts.length = 0 := by simpa using h
  refine ⟨?_, ?_, ?_, rfl⟩ <;>
    norm_num [TfidfVectorizer.fitDefault, TfidfVectorizer.fit, hl,
      TfidfVectorizer.buildVocabulary, TfidfVectorizer.tokenize]

/-- C10 witness: the override evaluated on a one-document corpus after
construction with `maxDf = 3/10`, `maxFeatures = 7`. -/
theorem C10_fit_default_overrides_witness :
    (TfidfVectorizer.fitDefault (construct true (3 / 10) 7 1 2) ["a"]).maxDf = 1 / 2 ∧
    (TfidfVectorizer.fitDefault (construct true (3 / 10) 7 1 2) ["a"]).maxFeatures = 10000 :=
  ⟨(C10_fit_default_overrides (construct true (3 / 10) 7 1 2) ["a"] 3 5 (by decide)).1,
   (C10_fit_default_overrides (construct true (3 / 10) 7 1 2) ["a"] 3 5 (by decide)).2.1⟩

theorem sumSq_nonneg (l : List ℝ) : 0 ≤ sumSq l :=
  List.sum_nonneg (by
    intro x hx; obtain ⟨a, _, rfl⟩ := List.mem_map.mp hx; exact mul_self_nonneg a)

theorem sumSq_zero_all_zero (l : List ℝ) (h : sumSq l ≤ 0) : ∀ x ∈ l, x = 0 := by
  induction l with
  | nil => simp
  | cons a tl ih =>
    have hs : sumSq (a :: tl) = a * a + sumSq tl := by simp [sumSq]
    rw [hs] at h
    have h1 : a * a = 0 := le_antisymm (by nlinarith [sumSq_nonneg tl]) (mul_self_nonneg a)
    have h2 : sumSq tl ≤ 0 := by nlinarith [mul_self_nonneg a]
    intro x hx
    rcases List.mem_cons.mp hx with rfl | hx
    · exact mul_self_eq_zero.mp h1
    · exact ih h2 x hx

theorem sumSq_map_div (l : List ℝ) (s : ℝ) :
    sumSq (l.map (fun x => x / s)) = sumSq l / (s * s) := by
  induction l with
  | nil => simp [sumSq]
  | cons a tl ih =>
    simp only [sumSq, List.map_cons, List.sum_cons] at ih ⊢
    rw [ih, div_mul_div_comm, div_add_div_same]

theorem sum_all_zero (l : List ℝ) (h : ∀ x ∈ l, x = 0) : sumSq l = 0 := by
  have hz : ∀ y ∈ l.map (fun x => x * x), y = 0 := by
    intro y hy; obtain ⟨a, ha, rfl⟩ := List.mem_map.mp hy
    rw [h a ha]; ring
  exact List.sum_eq_zero hz

theorem normalizeVector_unit_or_zero (vec : List ℝ) :
    l2norm (normalizeVector vec) = 1 ∨ (normalizeVector vec = vec ∧ ∀ x ∈ vec, x = 0) := by
  by_cases h : 0 < sumSq vec
  · left
    have hne : sumSq vec ≠ 0 := ne_of_gt h
    have hv : normalizeVector vec = vec.map (fun x => x / Real.sqrt (sumSq vec)) := by
      simp [normalizeVector, h]
    rw [l2norm, hv, sumSq_map_div, Real.mul_self_sqrt (le_of_lt h), div_self hne,
      Real.sqrt_one]
  · right
    constructor
    · simp [normalizeVector, h]
    · exact sumSq_zero_all_zero vec (not_lt.mp h)

theorem normalizeVector_zero_fixed (vec : List ℝ) (h : ∀ x ∈ vec, x = 0) :
    normalizeVector vec = vec := by
  have hn : ¬ 0 < sumSq vec := by rw [sum_all_zero vec h]; exact lt_irrefl 0
  simp [normalizeVector, hn]

theorem tokenize_empty (v : TfidfVectorizer) (h : 1 ≤ v.minNgram) :
    v.tokenize "" = [] := by
  rw [TfidfVectorizer.tokenize]
  have hw : splitWords "" = [] := rfl
  rw [hw, List.flatten_eq_nil_iff]
  intro xs hxs
  obtain ⟨n, hn, rfl⟩ := List.mem_map.mp hxs
  have h0 : 1 ≤ n := le_trans h (List.mem_range'_1.mp hn).1
  simp only [List.length_nil]
  rw [if_pos (show 0 < n by omega)]

theorem transformSingleDocument_empty (v : TfidfVectorizer) (h : 1 ≤ v.minNgram) :
    v.transformSingleDocument "" = List.replicate v.vocabulary.length 0 := by
  rw [TfidfVectorizer.transformSingleDocument, tokenize_empty v h]
  show normalizeVector (List.replicate v.vocabulary.length 0) = _
  exact normalizeVector_zero_fixed _ (fun x hx => List.eq_of_mem_replicate hx)

/-- C4 counterexample: the claim says `transform([""])` returns normally in
every state reachable by the listed calls, including right after `fit` on an
empty corpus — but `fit` on an empty corpus leaves the vocabulary empty, and
`transform` then raises the unfitted-model error. -/
theorem C4_transform_after_empty_fit_throws :
    (TfidfVectorizer.fitDefault (construct true (1 / 2) 10000 1 2) []).vocabulary = [] ∧
    (TfidfVectorizer.fitDefault (construct true (1 / 2) 10000 1 2) []).transform [""] =
      Except.error "Vocabulary is empty. Call fit() first." :=
  ⟨rfl, rfl⟩

/-- C4 as amended: `fit` on an empty document list returns normally, clearing
the vocabulary, frequency table and document count; and `transform([""])`
returns normally with a single all-zero feature vector in every state whose
vocabulary is nonempty (with the stored n-gram lower bound at least 1, as any
non-degenerately constructed instance has).  When the vocabulary is empty —
in particular immediately after `fit` on an empty corpus — `transform` instead
fails with the unfitted-model error. -/
theorem C4_empty_inputs :
    (∀ (v : TfidfVectorizer) (d : ℚ) (f : Nat),
      (v.fit [] d f).vocabulary = [] ∧ (v.fit [] d f).documentFrequencies = [] ∧
      (v.fit [] d f).totalDocuments = 0) ∧
    (∀ v : TfidfVectorizer, v.vocabulary ≠ [] → 1 ≤ v.minNgram →
      v.transform [""] = Except.ok [List.replicate v.vocabulary.length 0]) := by
  constructor
  · intro v d f
    exact ⟨rfl, rfl, rfl⟩
  · intro v hv hn
    rw [TfidfVectorizer.transform, if_neg hv]
    rw [List.map_cons, List.map_nil, transformSingleDocument_empty v hn]

/-- C4 witness: an empty-corpus fit leaves an empty vocabulary, and
`transform([""])` on a concrete fitted state returns the all-zero vector. -/
theorem C4_empty_inputs_witness :
    (TfidfVectorizer.fit ⟨true, 1 / 2, 10, 1, 2, 5, [("a", 0)], [1]⟩ [] (1 / 2) 10).vocabulary
      = [] ∧
    TfidfVectorizer.transform ⟨true, 1 / 2, 10000, 1, 2, 1, [("a", 0)], [1]⟩ [""] =
      Except.ok [[(0 : ℝ)]] := by
  constructor
  · exact (C4_empty_inputs.1 ⟨true, 1 / 2, 10, 1, 2, 5, [("a", 0)], [1]⟩ (1 / 2) 10).1
  · have h := C4_empty_inputs.2 ⟨true, 1 / 2, 10000, 1, 2, 1, [("a", 0)], [1]⟩
      (by decide) (by decide)
    simpa using h

/-- C5: for every vectorizer state and every document, the transformed feature
vector either has Euclidean norm exactly 1 (hence within the claimed 1e-6
tolerance) or consists entirely of zeros; and `normalizeVector` returns an
all-zero vector unchanged, the division by its zero norm being skipped. -/
theorem C5_unit_norm_or_zero :
    (∀ (v : TfidfVectorizer) (text : String),
      l2norm (v.transformSingleDocument text) = 1 ∨
        ∀ x ∈ v.transformSingleDocument text, x = 0) ∧
    (∀ vec : List ℝ, (∀ x ∈ vec, x = 0) → normalizeVector vec = vec) := by
  constructor
  · intro v text
    rw [TfidfVectorizer.transformSingleDocument]
    rcases normalizeVector_unit_or_zero
        (((termFrequencies (v.tokenize text))).foldl (fun vec tf =>
          match lookupVocab v.vocabulary tf.1 with
          | none => vec
          | some featureIdx =>
              vec.set featureIdx
                (tfidfWeight v.sublinearTf tf.2 (v.documentFrequencies.getD featureIdx 0)
                  v.totalDocuments)) (List.replicate v.vocabulary.length 0)) with
      h | h
    · exact Or.inl h
    · exact Or.inr (by rw [h.1]; exact h.2)
  · exact normalizeVector_zero_fixed

/-- C5 witness: the all-zero vector is left unchanged by normalization. -/
theorem C5_unit_norm_or_zero_witness :
    normalizeVector [(0 : ℝ), 0] = [0, 0] :=
  C5_unit_norm_or_zero.2 [0, 0] (by simp)

theorem bumpCount_keys (m : List (String × Nat)) (t : String) :
    (bumpCount m t).map Prod.fst =
      if t ∈ m.map Prod.fst then m.map Prod.fst else m.map Prod.fst ++ [t] := by
  induction m with
  | nil => simp [bumpCount]
  | cons x rest ih =>
    by_cases hx : x.1 = t
    · simp [bumpCount, hx]
    · by_cases hm : t ∈ rest.map Prod.fst
      · simp [bumpCount, hx, ih, hm, Ne.symm hx]
      · simp [bumpCount, hx, ih, hm, Ne.symm hx]

theorem bumpCount_nodup (m : List (String × Nat)) (t : String)
    (h : (m.map Prod.fst).Nodup) : ((bumpCount m t).map Prod.fst).Nodup := by
  rw [bumpCount_keys]
  split
  · exact h
  · next hmem => simp [List.nodup_append, h, hmem]

theorem foldl_bumpCount_nodup (tokens : List String) (m : List (String × Nat))
    (h : (m.map Prod.fst).Nodup) :
    ((tokens.foldl bumpCount m).map Prod.fst).Nodup := by
  induction tokens generalizing m with
  | nil => exact h
  | cons t ts ih => exact ih _ (bumpCount_nodup m t h)

theorem docFreqsOf_nodup (docs : List (List String)) :
    ((docFreqsOf docs).map Prod.fst).Nodup := by
  rw [docFreqsOf]
  have key : ∀ (ds : List (List String)) (m : List (String × Nat)),
      (m.map Prod.fst).Nodup →
      ((ds.foldl (fun m doc => doc.dedup.foldl bumpCount m) m).map Prod.fst).Nodup := by
    intro ds
    induction ds with
    | nil => intro m h; exact h
    | cons doc rest ih => intro m h; exact ih _ (foldl_bumpCount_nodup _ _ h)
  exact key docs [] (by simp)

theorem vocab_indices_eq (l : List (String × Nat)) :
    (l.enum.map (fun p => (p.2.1, p.1))).map Prod.snd = List.range l.length := by
  rw [List.map_map]
  have hc : (Prod.snd ∘ fun p : Nat × (String × Nat) => (p.2.1, p.1)) = Prod.fst := rfl
  rw [hc, List.enum_map_fst]

theorem buildVocabulary_wellFormed (v : TfidfVectorizer) (docs : List (List String))
    (maxDf : ℚ) (mf : Nat) : (v.buildVocabulary docs maxDf mf).wellFormed := by
  have h0 := docFreqsOf_nodup docs
  have h1 : ((filterByDf (docFreqsOf docs) (maxDfCutoff maxDf v.totalDocuments)).map
      Prod.fst).Nodup :=
    ((List.filter_sublist _).map Prod.fst).nodup h0
  have h2 : ((sortByGt (fun a b => decide (b.2 < a.2))
      (filterByDf (docFreqsOf docs) (maxDfCutoff maxDf v.totalDocuments))).map
        Prod.fst).Nodup :=
    (((sortByGt_perm _ _).map Prod.fst).nodup_iff).mpr h1
  have h3 : (((sortByGt (fun a b => decide (b.2 < a.2))
      (filterByDf (docFreqsOf docs) (maxDfCutoff maxDf v.totalDocuments))).take mf).map
        Prod.fst).Nodup :=
    ((List.take_sublist mf _).map Prod.fst).nodup h2
  refine ⟨?_, ?_, ?_⟩
  · simp [TfidfVectorizer.buildVocabulary]
  · simpa only [TfidfVectorizer.buildVocabulary, vocab_keys_eq] using h3
  · simp only [TfidfVectorizer.buildVocabulary]
    rw [vocab_indices_eq]
    simp

theorem setAssoc_not_mem (m : List (String × Nat)) (t : String) (i : Nat)
    (h : t ∉ m.map Prod.fst) : setAssoc m t i = m ++ [(t, i)] := by
  induction m with
  | nil => rfl
  | cons x rest ih =>
    simp only [List.map_cons, List.mem_cons, not_or] at h
    have hx : ¬ x.1 = t := fun e => h.1 e.symm
    simp [setAssoc, hx, ih h.2]

theorem foldl_setAssoc (l : List (String × Nat)) :
    ∀ acc : List (String × Nat), ((acc ++ l).map Prod.fst).Nodup →
      l.foldl (fun m ti => setAssoc m ti.1 ti.2) acc = acc ++ l := by
  induction l with
  | nil => intro acc _; simp
  | cons x tl ih =>
    intro acc h
    have hsplit : ((acc ++ [(x.1, x.2)]) ++ tl).map Prod.fst = (acc ++ x :: tl).map Prod.fst := by
      simp
    have hx : x.1 ∉ acc.map Prod.fst := by
      simp only [List.map_append, List.nodup_append, List.map_cons] at h
      intro hmem
      exact (h.2.2 hmem) (List.mem_cons_self _ _)
    rw [List.foldl_cons, setAssoc_not_mem acc x.1 x.2 hx,
      ih (acc ++ [(x.1, x.2)]) (by rw [hsplit]; exact h)]
    simp

theorem load_save_roundtrip (v : TfidfVectorizer)
    (h : (v.vocabulary.map Prod.fst).Nodup) : loadVectorizer v.save = v := by
  cases v with
  | mk sub d mf mn mx td vocab dfs =>
    simp only [loadVectorizer, TfidfVectorizer.save]
    rw [foldl_setAssoc vocab [] (by simpa using h)]
    simp

/-- C6: after construction, after every fit, and after a load of saved
content, the vocabulary's size equals the document-frequency table's length
and the assigned feature indices are exactly 0..N-1, each bound to a distinct
term; moreover loading saved content with distinct terms reproduces the saved
state exactly. -/
theorem C6_vocabulary_invariant :
    (∀ (sub : Bool) (d : ℚ) (mf mn mx : Nat), (construct sub d mf mn mx).wellFormed) ∧
    (∀ (v : TfidfVectorizer) (texts : List String) (d : ℚ) (f : Nat),
      (v.fit texts d f).wellFormed) ∧
    (∀ v : TfidfVectorizer, (v.vocabulary.map Prod.fst).Nodup →
      loadVectorizer v.save = v) ∧
    (∀ v : TfidfVectorizer, v.wellFormed → (loadVectorizer v.save).wellFormed) := by
  refine ⟨?_, ?_, ?_, ?_⟩
  · intro sub d mf mn mx
    exact ⟨rfl, List.nodup_nil, rfl⟩
  · intro v texts d f
    rw [TfidfVectorizer.fit]
    split
    · exact ⟨rfl, List.nodup_nil, rfl⟩
    · exact buildVocabulary_wellFormed _ _ _ _
  · exact load_save_roundtrip
  · intro v hv
    rw [load_save_roundtrip v hv.2.1]
    exact hv

/-- C6 witness: the save/load round trip evaluated on a concrete
single-feature fitted state. -/
theorem C6_vocabulary_invariant_witness :
    loadVectorizer (TfidfVectorizer.save ⟨true, 1 / 2, 10, 1, 1, 1, [("a", 0)], [1]⟩) =
      (⟨true, 1 / 2, 10, 1, 1, 1, [("a", 0)], [1]⟩ : TfidfVectorizer) ∧
    (loadVectorizer
      (TfidfVectorizer.save ⟨true, 1 / 2, 10, 1, 1, 1, [("a", 0)], [1]⟩)).wellFormed :=
  ⟨C6_vocabulary_invariant.2.2.1 _ (by decide),
   C6_vocabulary_invariant.2.2.2 _ ⟨rfl, by decide, rfl⟩⟩

/-- Modelled from the spec: the implementation of
blahajpi::models::SGDClassifier is not present under src/ (only its header
uses, callers and unit tests are); spec section 4.2 describes a binary linear
classifier whose fit checks the feature/label sizes first and otherwise runs
per-example gradient-descent epochs from zero-initialized weights. -/
structure SGDClassifier where
  lossKind : String
  alpha : ℝ
  epochs : Nat
  eta0 : ℝ
  weights : List ℝ
  bias : ℝ

/-- Logistic function used for the log-loss gradient and probabilities. -/
noncomputable def sigmoid (z : ℝ) : ℝ := 1 / (1 + Real.exp (-z))

/-- Dot product of a weight vector and a feature vector. -/
noncomputable def dotProduct (w x : List ℝ) : ℝ :=
  ((w.zip x).map (fun p => p.1 * p.2)).sum

/-- Modelled from the spec: one per-example update of the SGD epoch loop with
log loss and L2 regularization, as described in spec section 4.2. -/
noncomputable def sgdUpdate (alpha eta : ℝ) (wb : List ℝ × ℝ) (ex : List ℝ × Int) :
    List ℝ × ℝ :=
  let w := wb.1
  let b := wb.2
  let y : ℝ := if ex.2 ≠ 0 then 1 else 0
  let err := sigmoid (dotProduct w ex.1 + b) - y
  ((w.zip ex.1).map (fun p => p.1 - eta * (err * p.2 + alpha * p.1)), b - eta * err)

/-- Modelled from the spec: the training loop of fit, with weights
zero-initialized to the dimensionality of the first example and one pass over
the examples per epoch. -/
noncomputable def trainSGD (c : SGDClassifier) (features : List (List ℝ))
    (labels : List Int) : SGDClassifier :=
  let dim := (features.headD []).length
  let examples := features.zip labels
  let final := (List.range c.epochs).foldl
    (fun wb _ => examples.foldl (sgdUpdate c.alpha c.eta0) wb)
    (List.replicate dim 0, 0)
  { c with weights := final.1, bias := final.2 }

/-- Modelled from the spec: SGDClassifier::fit fails with an invalid-argument
error when the feature and label counts differ, and otherwise trains. -/
noncomputable def SGDClassifier.fit (c : SGDClassifier) (features : List (List ℝ))
    (labels : List Int) : Except String SGDClassifier :=
  if features.length ≠ labels.length then
    Except.error "Features and labels must have the same size"
  else Except.ok (trainSGD c features labels)

/-- C9: for every features/labels input with differing sizes, the
spec-modelled SGDClassifier fit fails with the invalid-argument error instead
of training, and with matching sizes it trains. -/
theorem C9_sgd_fit_mismatch :
    ∀ (c : SGDClassifier) (features : List (List ℝ)) (labels : List Int),
      (features.length ≠ labels.length →
        c.fit features labels =
          Except.error "Features and labels must have the same size") ∧
      (features.length = labels.length →
        c.fit features labels = Except.ok (trainSGD c features labels)) := by
  intro c features labels
  constructor <;> intro h <;> simp [SGDClassifier.fit, h]

/-- C9 witness: fit applied to two feature rows and one label fails. -/
theorem C9_sgd_fit_mismatch_witness :
    SGDClassifier.fit ⟨"log", 0, 1, 0, [], 0⟩ [[1], [2]] [0] =
      Except.error "Features and labels must have the same size" :=
  (C9_sgd_fit_mismatch ⟨"log", 0, 1, 0, [], 0⟩ [[1], [2]] [0]).1 (by decide)
end Blahaj

